import Mathlib

/-
Verification development for the pyGeoBoundaries validation engine
(pygeoboundaries/pygeoboundaries.py).

The checks of the source file are embedded shallowly: each check becomes a
pure Lean function from the already-loaded in-memory data (feature
collection, CRS string, raw metadata text, reference vocabularies, current
clock year) to the ordered list of severity-tagged findings that the Python
code prints.  File loading (loadFile / metaLoad), the pandas / shapely /
pyproj library calls and the remote vocabulary fetch are collaborators
outside the engine; they are represented by oracle fields on the data
model (geometry bounds, validity flags, column sampling) or by explicit
input parameters, exactly as the data they hand to the checks.

Python string operations are modelled on `List Char` so that every
definition evaluates inside the kernel.  `str.lower`/`str.upper` are
modelled ASCII-wise (`Char.toLower`), `str.strip` with the ASCII whitespace
class; this coincides with Python on all ASCII data, which is the domain of
every vocabulary and keyword the checks use.
-/

namespace PyGeoBoundaries

/-! ## Python string primitives (modelled on `List Char`) -/

/-- Whitespace class of Python `str.strip` (ASCII part). -/
def pySpace (c : Char) : Bool :=
  c == ' ' || c == '\t' || c == '\n' || c == '\r' || c == '\x0b' || c == '\x0c'

/-- Strip leading and trailing whitespace from a character list. -/
def stripL (l : List Char) : List Char :=
  ((l.dropWhile pySpace).reverse.dropWhile pySpace).reverse

/-- Models Python `str.strip()`. -/
def pyStrip (s : String) : String := ⟨stripL s.data⟩

/-- Models Python `str.lower()` (ASCII case mapping). -/
def pyLower (s : String) : String := ⟨s.data.map Char.toLower⟩

/-- Models Python `str.upper()` (ASCII case mapping). -/
def pyUpper (s : String) : String := ⟨s.data.map Char.toUpper⟩

/-- Models Python `str.replace(" ", "")`: delete every space character. -/
def removeSpaces (s : String) : String := ⟨s.data.filter (fun c => c != ' ')⟩

/-- Models Python `s[:-2]`: drop the last two characters. -/
def pyDropTwo (s : String) : String := ⟨s.data.dropLast.dropLast⟩

/-- Sublist occurrence test on character lists. -/
def subIn (sub : List Char) : List Char → Bool
  | [] => sub.isEmpty
  | c :: cs => sub.isPrefixOf (c :: cs) || subIn sub cs

/-- Models the Python containment test `sub in s` on strings. -/
def pyIn (sub s : String) : Bool := subIn sub.data s.data

/-- Models Python `s.endswith(suf)`. -/
def pyEndsWith (suf s : String) : Bool :=
  suf.data.reverse.isPrefixOf s.data.reverse

/-- Split a character list on a single separator character, Python
`str.split(sep)` semantics: the empty list yields one empty part. -/
def splitChar (sep : Char) : List Char → List (List Char)
  | [] => [[]]
  | c :: cs =>
    let r := splitChar sep cs
    if c == sep then [] :: r
    else
      match r with
      | [] => [[c]]
      | h :: t => (c :: h) :: t

/-- Models Python `s.split(sep)` for a one-character separator. -/
def pySplitChar (sep : Char) (s : String) : List String :=
  (splitChar sep s.data).map (fun l => (⟨l⟩ : String))

/-- Worker of `splitSub`, structurally recursive on a fuel argument so
that it evaluates inside the kernel; every step consumes at least one
character, so fuel equal to the list length is enough. -/
def splitSubAux (sep : List Char) : Nat → List Char → List (List Char)
  | _, [] => [[]]
  | 0, l => [l]
  | fuel + 1, c :: cs =>
    if sep.isPrefixOf (c :: cs) && decide (0 < sep.length) then
      [] :: splitSubAux sep fuel (cs.drop (sep.length - 1))
    else
      match splitSubAux sep fuel cs with
      | [] => [[c]]
      | h :: t => (c :: h) :: t

/-- Split a character list on a non-empty separator sublist, Python
`str.split(sep)` semantics (greedy, left to right, non-overlapping). -/
def splitSub (sep l : List Char) : List (List Char) :=
  splitSubAux sep l.length l

/-- Models Python `s.split(sep)` for a multi-character separator. -/
def pySplitSub (sep s : String) : List String :=
  (splitSub sep.data s.data).map (fun l => (⟨l⟩ : String))

/-- Models Python `str.splitlines()` for newline-separated text: split on
the newline character, with no trailing empty line for text ending in a
newline (and no line at all for empty text). -/
def pySplitlines (s : String) : List String :=
  let parts := (splitChar '\n' s.data).map (fun l => (⟨l⟩ : String))
  match parts.getLast? with
  | some "" => parts.dropLast
  | _ => parts

/-- Decimal digit list to a natural number. -/
def digitsToNat (l : List Char) : Nat :=
  l.foldl (fun a c => a * 10 + (c.toNat - 48)) 0

/-- Check that every character of the list is a decimal digit. -/
def allDigits (l : List Char) : Bool := l.all Char.isDigit

/-- Models the Python expression `int(float(s))` of the year validator on
plain decimal literals: optional surrounding whitespace, an optional sign,
an integer part and an optional fractional part, truncated toward zero.
Exponent notation, underscores and the inf/nan specials of the collaborator
`float` builtin are outside the modelled domain and count as failures. -/
def pyIntFloat (s : String) : Option Int :=
  let l := stripL s.data
  let signed : Int × List Char :=
    match l with
    | '-' :: rest => (-1, rest)
    | '+' :: rest => (1, rest)
    | _ => (1, l)
  let sign := signed.1
  let body := signed.2
  match splitChar '.' body with
  | [ip] =>
    if !ip.isEmpty && allDigits ip then some (sign * (digitsToNat ip : Int)) else none
  | [ip, fp] =>
    if allDigits ip && allDigits fp && (!ip.isEmpty || !fp.isEmpty) then
      some (sign * (digitsToNat ip : Int))
    else none
  | _ => none

/-- Models the collaborator call `datetime.datetime.strptime(s, "%d-%m-%Y")`
as a recognizer: dash-separated all-digit day, month and year with the day
in 1..31 and the month in 1..12.  The finer per-month calendar validation of
the real library is not modelled; no claim depends on it. -/
def strptimeDMY (s : String) : Option (Nat × Nat × Nat) :=
  match splitChar '-' s.data with
  | [d, mo, y] =>
    if allDigits d && allDigits mo && allDigits y &&
        !d.isEmpty && !mo.isEmpty && !y.isEmpty then
      let dn := digitsToNat d
      let mn := digitsToNat mo
      if 1 ≤ dn && dn ≤ 31 && 1 ≤ mn && mn ≤ 12 then
        some (dn, mn, digitsToNat y)
      else none
    else none
  | _ => none

/-! ## Findings -/

/-- Severity tag of an emitted validation message, the first argument of
each `print(severity, message)` call of the source. -/
inductive Severity where
  | INFO
  | WARN
  | CRITICAL
deriving DecidableEq

/-- One emitted validation result: a `print(severity, message)` call. -/
structure Finding where
  severity : Severity
  message : String
deriving DecidableEq

/-- Shorthand for an INFO finding. -/
def info (m : String) : Finding := ⟨Severity.INFO, m⟩

/-- Shorthand for a WARN finding. -/
def warn (m : String) : Finding := ⟨Severity.WARN, m⟩

/-- Shorthand for a CRITICAL finding. -/
def critical (m : String) : Finding := ⟨Severity.CRITICAL, m⟩

/-! ## Data model

The engine consumes data already loaded by the collaborators.  The shapely
library calls made on a geometry (`bounds`, `is_valid`,
`buffer(0).is_valid`, `explain_validity`) are oracle fields, as is the
pandas column sampling of `nameCheck` / `isoCheck`. -/

/-- One feature's geometry, as the engine observes it through shapely:
its bounding box (`geometry.bounds`, modelled as rationals), its
topological validity flag (`geometry.is_valid`), the validity flag of its
zero-distance buffer (`geometry.buffer(0).is_valid`) and the text of
`explain_validity(geometry)`. -/
structure Geometry where
  xmin : ℚ
  ymin : ℚ
  xmax : ℚ
  ymax : ℚ
  isValid : Bool
  buffer0IsValid : Bool
  explainValidity : String

/-- The loaded feature collection handed over by `loadFile`: the column
names of the GeoDataFrame, the per-row geometries in order, the CRS
identifier (string form of `geomData.crs`; the pyproj equality of the
source's `geomData.crs == "epsg:4326"` is modelled as string equality on
that canonical form), and the pandas sampling oracle used on a detected
column: `sampleCol c = some (example, count)` models a successful
evaluation of `geomData[c][0]` and the `.str.contains` count, `none` models
the expression raising (caught by the source's `except` clause). -/
structure FeatureCollection where
  columns : List String
  features : List Geometry
  crs : String
  sampleCol : String → Option (String × Nat)

/-! ## nameCheck and isoCheck (column detection) -/

/-- Candidate column names for the name column (source: `nameCheck`). -/
def nameCandidates : List String :=
  ["Name", "name", "NAME", "shapeName", "shapename", "SHAPENAME", "MAX_Name"]

/-- Candidate column names for the ISO column (source: `isoCheck`). -/
def isoCandidates : List String :=
  ["ISO", "ISO_code", "ISO_Code", "iso", "shapeISO", "shapeiso", "shape_iso", "MAX_ISO_Co"]

/-- Intersection of the candidate set with the available columns
(`nameC & set(geomData.columns)`); the candidate lists are duplicate-free,
so the filter length equals the Python set-intersection size. -/
def colMatches (cands : List String) (fc : FeatureCollection) : List String :=
  cands.filter (fun c => fc.columns.contains c)

/-- Findings of `nameCheck` given the loaded collection.  The source only
acts when the intersection has exactly one element (`len(nameCol) == 1`);
there is no else branch. -/
def nameCheckFindings (fc : FeatureCollection) : List Finding :=
  match colMatches nameCandidates fc with
  | [c] =>
    info ("Column for name detected: " ++ c) ::
      (match fc.sampleCol c with
       | some (ex, cnt) => [info ("Names: " ++ toString cnt ++ " | Example: " ++ ex)]
       | none => [warn "No name values were found, even though a column was present."])
  | _ => []

/-- Findings of `isoCheck` given the loaded collection. -/
def isoCheckFindings (fc : FeatureCollection) : List Finding :=
  match colMatches isoCandidates fc with
  | [c] =>
    info ("Column for ISO detected: " ++ c) ::
      (match fc.sampleCol c with
       | some (ex, cnt) => [info ("ISOs: " ++ toString cnt ++ " | Example: " ++ ex)]
       | none => [warn "No ISOs values were found, even though a column was present."])
  | _ => []

/-! ## boundaryCheck -/

/-- Tolerance of the earth-extent check (`tol = 1e-5`). -/
def extentTol : ℚ := 1 / 100000

/-- The source's `valid` expression for one row: the bounding box lies
within the earth extent up to the tolerance. -/
def extentOk (g : Geometry) : Prop :=
  -180 - extentTol ≤ g.xmin ∧ g.xmax ≤ 180 + extentTol ∧
    -90 - extentTol ≤ g.ymin ∧ g.ymax ≤ 90 + extentTol

instance (g : Geometry) : Decidable (extentOk g) := by
  unfold extentOk
  infer_instance

/-- Message of the extent violation finding. -/
def extentMsg (g : Geometry) : String :=
  "ERROR: This geometry seems to extend past the boundaries of the earth: "
    ++ g.explainValidity

/-- Findings of the earth-extent step of `boundaryCheck` for one feature. -/
def extentFindings (g : Geometry) : List Finding :=
  if extentOk g then [] else [critical (extentMsg g)]

/-- Findings of the topological-validity step of `boundaryCheck` for one
feature: WARN with the explanation when invalid, then either a WARN that a
zero-distance buffer repaired it or a CRITICAL that it is unrepairable. -/
def validityFindings (g : Geometry) : List Finding :=
  if g.isValid then []
  else
    warn ("Something is wrong with this geometry, but we might be able to fix it with a buffer: "
        ++ g.explainValidity) ::
      (if g.buffer0IsValid then
        [warn "A geometry error was corrected with buffer=0 in shapely."]
      else
        [critical ("ERROR: Something is wrong with this geometry, and we can\x27t fix it: "
            ++ g.explainValidity)])

/-- Findings of `boundaryCheck` for one feature (extent step then validity
step, in source order). -/
def featureFindings (g : Geometry) : List Finding :=
  extentFindings g ++ validityFindings g

/-- Findings of `boundaryCheck` over the whole collection, row by row. -/
def boundaryCheckFindings (fc : FeatureCollection) : List Finding :=
  fc.features.flatMap featureFindings

/-! ## projectionCheck -/

/-- Findings of `projectionCheck` given the collection's CRS string. -/
def projectionCheckFindings (fc : FeatureCollection) : List Finding :=
  if fc.crs == "epsg:4326" then
    [info ("Projection confirmed as " ++ fc.crs)]
  else
    [critical ("The projection must be EPSG 4326.  The file proposed has a projection of: "
        ++ fc.crs)]

/-! ## metaCheck: line parsing

The source's per-line `try` block splits the line on `:`; with fewer than
two parts the access `e[1]` raises an IndexError (text
"list index out of range") that the `except` clause turns into a WARN and
the sentinel pair.  With more than two parts, `e[1] = e[1] + e[2]`
concatenates only the second and the third part; later parts are unused. -/

/-- Result of the `try` block of the metadata loop: the stripped
`(key, value)` pair, or the exception text when the line has no colon. -/
def parseLine (m : String) : Except String (String × String) :=
  match pySplitChar ':' m with
  | k :: v1 :: rest =>
    Except.ok (pyStrip k, pyStrip (match rest with
      | v2 :: _ => v1 ++ v2
      | [] => v1))
  | _ => Except.error "list index out of range"

/-- The `(key, value)` pair a metadata line is validated under, with the
sentinel pair substituted on a read failure. -/
def lineKV (m : String) : String × String :=
  match parseLine m with
  | Except.ok kv => kv
  | Except.error _ => ("readError", "readError")

/-- WARN message of a metadata line that failed to parse. -/
def readFailMsg (m : String) : String :=
  "At least one line of meta.txt failed to be read correctly: " ++ m
    ++ " | list index out of range"

/-! ## metaCheck: field validators

Each rule is an independent predicate on the key, exactly in source order.
The year rule and the license rule reassign the Python variable `val`
(legacy `.0` strip, shorthand license remap), and the reassigned value is
seen by the rules that follow on the same line, so those two rules also
return the updated value and `lineRules` threads it through. -/

/-- Trigger of the year rule: `("Year" in key) or ("year" in key)`. -/
def yearTrigger (key : String) : Bool := pyIn "Year" key || pyIn "year" key

/-- Message of the year rule's `except` clause.  The collaborator exception
text varies with the failure; it is abstracted by the descriptive `e`
argument, which no claim inspects. -/
def yearExnMsg (val e : String) : String :=
  "The year provided in the metadata " ++ val
    ++ " was invalid. This is what I know:" ++ e

/-- Year rule of `metaCheck` (source lines 369-396): legacy `.0` strip,
then either a `" to "` date-range parse or an integer year compared
against 1950 and the current clock year.  Returns the findings and the
possibly stripped value. -/
def yearRule (curYear : Int) (key val : String) : List Finding × String :=
  if yearTrigger key then
    let val := if pyIn ".0" val then pyDropTwo val else val
    let fs :=
      if pyIn "to" val then
        match pySplitSub " to " val with
        | [d1, d2] =>
          match strptimeDMY d1, strptimeDMY d2 with
          | some _, some _ => [info ("Valid date range " ++ val ++ " detected.")]
          | _, _ => [critical (yearExnMsg val "time data does not match format")]
        | _ => [critical (yearExnMsg val "values to unpack mismatch")]
      else
        match pyIntFloat val with
        | some year =>
          if year > 1950 && year ≤ curYear then
            [info ("Valid year " ++ toString year ++ " detected.")]
          else
            [critical ("The year in the meta.txt file is invalid (expected value is between 1950 and present): "
                ++ toString year)]
        | none => [critical (yearExnMsg val "could not convert string to float")]
    (fs, val)
  else ([], val)

/-- Boundary-type rule (source lines 398-414).  Nothing inside the
source's `try` can raise, so the `except` branch is dead and not
modelled. -/
def boundaryTypeRule (key val : String) : List Finding :=
  if pyIn "boundary type" (pyLower key) && !pyIn "name" (pyLower key) then
    if ["ADM0", "ADM1", "ADM2", "ADM3", "ADM4", "ADM5"].contains
        (removeSpaces (pyUpper val)) then
      [info ("Valid Boundary Type detected: " ++ val ++ ".")]
    else
      [critical ("The boundary type in the meta.txt file is invalid: " ++ val)]
  else []

/-- ISO rule (source lines 416-428). -/
def isoRule (isoL : List String) (key val : String) : List Finding :=
  if pyIn "iso" (pyStrip (pyLower key)) then
    if val.data.length ≠ 3 then
      [critical "ISO is invalid - we expect a 3-character ISO code following ISO-3166-1 (Alpha 3)."]
    else if !isoL.contains val then
      [critical "ISO is not on our list of valid ISO-3 codes.  See https://github.com/wmgeolab/geoBoundaryBot/blob/main/dta/iso_3166_1_alpha_3.csv for all valid codes this script checks against."]
    else
      [info ("Valid ISO detected: " ++ val)]
  else []

/-- The `["na", "nan", "null"]` placeholder test shared by several rules. -/
def naLike (val : String) : Bool := ["na", "nan", "null"].contains (pyLower val)

/-- The `len(val.replace(" ", "")) > 0` non-emptiness test. -/
def nonEmptyNoSpaces (val : String) : Bool := !(removeSpaces val).data.isEmpty

/-- Canonical-name rule (source lines 430-435). -/
def canonicalRule (key val : String) : List Finding :=
  if pyIn "canonical" (pyLower key) then
    if nonEmptyNoSpaces val then
      if !naLike val then [info ("Canonical name detected: " ++ val)] else []
    else [warn "No canonical name detected."]
  else []

/-- Source rule (source lines 437-444), with its explicit exclusions. -/
def sourceRule (key val : String) : List Finding :=
  if pyIn "source" (pyLower key) && !pyIn "license" (pyLower key)
      && !pyIn "data" (pyLower key) then
    if nonEmptyNoSpaces val then
      if !naLike val then [info ("Source detected: " ++ val)] else []
    else []
  else []

/-- Release-type rule (source lines 446-458). -/
def releaseTypeRule (key val : String) : List Finding :=
  if pyIn "release type" (pyLower key) then
    if !(["geoboundaries", "gbauthoritative", "gbhumanitarian", "gbopen",
          "un_salb", "un_ocha"].contains (pyLower val)) then
      [critical ("Invalid release type detected: " ++ val)]
    else
      [info ("Valid Release Type detected: " ++ val)]
  else []

/-- The shorthand license name the source remaps. -/
def licenseShorthand : String :=
  "Creative Commons Attribution for Intergovernmental Organisations"

/-- The canonical long form the shorthand is remapped to. -/
def licenseLongForm : String :=
  "Creative Commons Attribution 3.0 Intergovernmental Organisations (CC BY 3.0 IGO)"

/-- The shorthand cleanup of the license rule: the exact-match remap the
source applies before the vocabulary lookup. -/
def remapLicense (val : String) : String :=
  if val == licenseShorthand then licenseLongForm else val

/-- License rule (source lines 460-471): fires only when the lowercased
key is exactly "license"; remaps the known shorthand, then tests membership
of `val.lower().strip()` in the license vocabulary.  Returns the findings
and the possibly remapped value. -/
def licenseRule (licL : List String) (key val : String) : List Finding × String :=
  if pyLower key == "license" then
    let val := remapLicense val
    if !licL.contains (pyStrip (pyLower val)) then
      ([critical ("Invalid license detected: " ++ val)], val)
    else
      ([info ("Valid license type detected: " ++ val)], val)
  else ([], val)

/-- License-notes rule (source lines 473-478). -/
def licenseNotesRule (key val : String) : List Finding :=
  if pyIn "license notes" (pyLower key) then
    if nonEmptyNoSpaces val then
      if !naLike val then [info ("License notes detected: " ++ val)] else []
    else [info "No license notes detected."]
  else []

/-- License-source rule (source lines 480-487). -/
def licenseSourceRule (key val : String) : List Finding :=
  if pyIn "license source" (pyLower key) then
    if nonEmptyNoSpaces val then
      if !naLike val then [info ("License source detected: " ++ val)]
      else [critical "No license source detected."]
    else [critical "No license source detected."]
  else []

/-- Link-to-source-data rule (source lines 489-498). -/
def linkToDataRule (key val : String) : List Finding :=
  if pyIn "link to source data" (pyLower key) then
    if nonEmptyNoSpaces val then
      if !naLike val then [info ("Data Source Found: " ++ val)]
      else [critical "ERROR: No link to source data found."]
    else [critical "ERROR: No link to source data found."]
  else []

/-- Other-notes rule (source lines 500-505). -/
def otherNotesRule (key val : String) : List Finding :=
  if pyIn "other notes" (pyLower key) then
    if nonEmptyNoSpaces val then
      if !naLike val then [info ("Other notes detected: " ++ val)] else []
    else [warn "No other notes detected.  This field is optional."]
  else []

/-- All field validators applied to one parsed line, in source order, with
the `val` reassignments of the year and license rules threaded through. -/
def lineRules (isoL licL : List String) (curYear : Int) (key val : String) :
    List Finding :=
  let y := yearRule curYear key val
  let val := y.2
  let lic := licenseRule licL key val
  y.1 ++ boundaryTypeRule key val ++ isoRule isoL key val
    ++ canonicalRule key val ++ sourceRule key val ++ releaseTypeRule key val
    ++ lic.1 ++ licenseNotesRule key lic.2 ++ licenseSourceRule key lic.2
    ++ linkToDataRule key lic.2 ++ otherNotesRule key lic.2

/-- Findings of the metadata loop for one raw line: either the parsed pair
validated by all rules, or the read-failure WARN followed by the rules
applied to the sentinel pair. -/
def lineFindings (isoL licL : List String) (curYear : Int) (m : String) :
    List Finding :=
  match parseLine m with
  | Except.ok (k, v) => lineRules isoL licL curYear k v
  | Except.error _ =>
    warn (readFailMsg m) :: lineRules isoL licL curYear "readError" "readError"

/-- Findings of `metaCheck` on the raw metadata text: the opening INFO,
then every line of the text in order. -/
def metaCheckFindings (isoL licL : List String) (curYear : Int)
    (text : String) : List Finding :=
  info "Beginning meta.txt validity checks." ::
    (pySplitlines text).flatMap (lineFindings isoL licL curYear)

/-! ## checkLicensePng -/

/-- WARN message of a failed extension pass of `checkLicensePng`. -/
def noImageMsg : String :=
  "No license image found. Checked for license.png and license.jpg."

/-- Entry test of one extension pass:
`any(file.lower().endswith(ext) for file in file_names)`. -/
def entryMatches (ext entry : String) : Bool := pyEndsWith ext (pyLower entry)

/-- The extension loop of `checkLicensePng` over the archive entry names:
for each extension in order, a matching entry yields an INFO and an
immediate `return True`; a pass with no match prints the WARN and
continues.  Falling off the loop returns Python `None`, modelled as
`false`. -/
def licenseImageLoop (names : List String) : List String → List Finding × Bool
  | [] => ([], false)
  | ext :: rest =>
    if names.any (entryMatches ext) then
      ([info ("License image found with extension " ++ ext ++ ".")], true)
    else
      let r := licenseImageLoop names rest
      (warn noImageMsg :: r.1, r.2)

/-- Findings and result of `checkLicensePng` on the entry names of a zip
archive (`license_extensions = ['.png', '.jpg']`). -/
def licenseImageFindings (names : List String) : List Finding × Bool :=
  licenseImageLoop names [".png", ".jpg"]

/-- Full `checkLicensePng`, including the contract violation: on a
non-archive path the source raises a ValueError instead of emitting
findings. -/
def checkLicensePng (isZip : Bool) (names : List String) :
    Except String (List Finding × Bool) :=
  if isZip then Except.ok (licenseImageFindings names)
  else Except.error "Error: Please give a valid path with .zip extension."

/-! ## allChecks (orchestrator) -/

/-- One loaded archive submission, as the six checks observe it: the
feature collection with its CRS, the raw metadata text and the archive
entry names.  Only a `.zip` path lets the source's `allChecks` run to its
end (`loadFile` and `metaLoad` both accept it), so the completing run is
modelled over archive submissions. -/
structure Submission where
  fc : FeatureCollection
  metaText : String
  zipEntries : List String

/-- The full orchestration run of `allChecks` over an archive submission:
the concatenated findings of the six checks in source order, paired with
the terminal line `print("All checks are passes")`, which the source
emits unconditionally once the checks return. -/
def allChecks (isoL licL : List String) (curYear : Int) (s : Submission) :
    List Finding × String :=
  (nameCheckFindings s.fc ++ isoCheckFindings s.fc
      ++ boundaryCheckFindings s.fc ++ projectionCheckFindings s.fc
      ++ metaCheckFindings isoL licL curYear s.metaText
      ++ (licenseImageFindings s.zipEntries).1,
    "All checks are passes")

/-- Modelled from the spec: the derived outcome
`passed = true` iff zero CRITICAL findings were emitted.  The source
derives no such boolean; this definition follows the spec's words so the
orchestrator's actual terminal behaviour can be compared against it. -/
def specPassed (findings : List Finding) : Bool :=
  findings.all (fun f => !(f.severity == Severity.CRITICAL))

/-! ## Concrete fixtures used by counterexamples and witnesses -/

/-- A collection whose available columns hit two name candidates and two
ISO candidates at once: both detections are ambiguous. -/
def fcAmbiguous : FeatureCollection :=
  ⟨["Name", "NAME", "ISO", "iso"], [], "epsg:4326", fun _ => none⟩

/-- A collection whose name detection is ambiguous while its ISO
detection is unique: only one of the two detections fails. -/
def fcMixed : FeatureCollection :=
  ⟨["Name", "NAME", "ISO"], [], "epsg:4326", fun _ => none⟩

/-- A geometry whose bounding box exceeds the eastern earth extent by
2e-5: twice the tolerance of the extent check. -/
def geoOver : Geometry :=
  ⟨0, 0, 180.00002, 0, true, true, "Valid Geometry"⟩

/-- A topologically invalid geometry that a zero-distance buffer repairs. -/
def geoBroken : Geometry :=
  ⟨0, 0, 1, 1, false, true, "Self-intersection at or near point 0 0"⟩

/-- An archive submission whose metadata holds a two-character ISO code, a
guaranteed CRITICAL finding of the ISO rule. -/
def subCritical : Submission :=
  ⟨⟨[], [], "epsg:4326", fun _ => none⟩, "ISO: XX", ["license.png"]⟩

/-- An archive submission whose metadata holds the year line whose
validity depends on the current clock year. -/
def subYear : Submission :=
  ⟨⟨[], [], "epsg:4326", fun _ => none⟩, "Year: 2026", ["license.png"]⟩

/-! ## Helper lemmas -/

/-- Splitting on a character that does not occur yields the whole list as
the single part. -/
lemma splitChar_not_mem (sep : Char) (l : List Char) (h : sep ∉ l) :
    splitChar sep l = [l] := by
  induction l with
  | nil => rfl
  | cons c cs ih =>
    have h1 : (c == sep) = false := by
      simp only [beq_eq_false_iff_ne]
      intro e
      exact h (by simp [e])
    have h2 : sep ∉ cs := fun e => h (List.mem_cons_of_mem _ e)
    simp only [splitChar, ih h2, h1, Bool.false_eq_true, if_false]

/-- A line without a colon makes the source's `try` block raise the
IndexError that the `except` clause catches. -/
lemma parseLine_no_colon (m : String) (h : ':' ∉ m.data) :
    parseLine m = Except.error "list index out of range" := by
  unfold parseLine pySplitChar
  rw [splitChar_not_mem ':' m.data h]
  rfl

/-- No field validator fires on the sentinel key "readError": the rules
emit nothing for an unreadable line beyond its WARN. -/
lemma lineRules_sentinel (isoL licL : List String) (y : Int) :
    lineRules isoL licL y "readError" "readError" = [] := rfl

/-- The year rule leaves the line alone when its key trigger is off. -/
lemma yearRule_skip (y : Int) (k v : String) (h : yearTrigger k = false) :
    yearRule y k v = ([], v) := by
  unfold yearRule
  rw [h]
  exact rfl

/-- With the year trigger off, the field validators never consult the
clock year. -/
lemma lineRules_year_indep (isoL licL : List String) (y₁ y₂ : Int)
    (k v : String) (h : yearTrigger k = false) :
    lineRules isoL licL y₁ k v = lineRules isoL licL y₂ k v := by
  unfold lineRules
  rw [yearRule_skip y₁ k v h, yearRule_skip y₂ k v h]

/-- With the year trigger off for the parsed key, a line's findings never
consult the clock year. -/
lemma lineFindings_year_indep (isoL licL : List String) (y₁ y₂ : Int)
    (m : String) (h : yearTrigger (lineKV m).1 = false) :
    lineFindings isoL licL y₁ m = lineFindings isoL licL y₂ m := by
  unfold lineFindings
  unfold lineKV at h
  cases hp : parseLine m with
  | ok kv =>
    obtain ⟨k, v⟩ := kv
    rw [hp] at h
    exact lineRules_year_indep isoL licL y₁ y₂ k v h
  | error e =>
    show warn (readFailMsg m) :: lineRules isoL licL y₁ "readError" "readError"
        = warn (readFailMsg m) :: lineRules isoL licL y₂ "readError" "readError"
    rw [lineRules_year_indep isoL licL y₁ y₂ "readError" "readError" rfl]

/-- Clock independence of the metadata loop over any line list whose
parsed keys all avoid the year trigger. -/
lemma flatMap_lineFindings_year_indep (isoL licL : List String)
    (y₁ y₂ : Int) :
    ∀ ls : List String, (∀ m ∈ ls, yearTrigger (lineKV m).1 = false) →
      ls.flatMap (lineFindings isoL licL y₁)
        = ls.flatMap (lineFindings isoL licL y₂) := by
  intro ls
  induction ls with
  | nil => intro _; rfl
  | cons m ms ih =>
    intro h
    simp only [List.flatMap_cons]
    rw [lineFindings_year_indep isoL licL y₁ y₂ m (h m (by simp)),
      ih (fun x hx => h x (by simp [hx]))]

/-! ## Claim theorems -/

/-- Counterexample to C2 as stated: on the line
"Source: http://example.com:8080/data" the split yields four parts and the
code keeps only the second and the third, so the parsed value is
"http//example.com", not the claimed "http://example.com8080/data". -/
theorem colon_join_claim_cex :
    lineKV "Source: http://example.com:8080/data" = ("Source", "http//example.com")
      ∧ (lineKV "Source: http://example.com:8080/data").2
          ≠ "http://example.com8080/data" := by
  constructor
  · rfl
  · decide

/-- C2 (amended): for every metadata line whose split on the colon yields
more than two parts, the parsed value is the concatenation of only the
second and the third part with their separating colon dropped; every part
after the third is discarded.  In particular
"Source: http://example.com:8080/data" parses to "http//example.com". -/
theorem colon_join_drops_tail (m k v1 v2 : String) (rest : List String)
    (h : pySplitChar ':' m = k :: v1 :: v2 :: rest) :
    lineKV m = (pyStrip k, pyStrip (v1 ++ v2)) := by
  unfold lineKV parseLine
  rw [h]

/-- Witness for C2's theorem at the line "a:b:c:d". -/
theorem colon_join_drops_tail_witness :
    pySplitChar ':' "a:b:c:d" = "a" :: "b" :: "c" :: ["d"]
      ∧ lineKV "a:b:c:d" = ("a", "bc") := by
  refine ⟨by decide, ?_⟩
  rw [colon_join_drops_tail "a:b:c:d" "a" "b" "c" ["d"] (by decide)]
  decide

/-- Counterexample to C3 as stated: with a vocabulary holding the
canonical long form in its original capitalization, the remapped shorthand
is rejected as CRITICAL, although the long-form name is in the vocabulary
(and the lowercased value is its case-insensitive match): the lookup
compares the lowercased value verbatim against the vocabulary entries. -/
theorem license_longform_vocab_cex :
    licenseLongForm ∈ [licenseLongForm]
      ∧ pyLower (pyStrip licenseLongForm) = pyLower (pyStrip licenseLongForm)
      ∧ (licenseRule [licenseLongForm] "License" licenseShorthand).1
          = [critical ("Invalid license detected: " ++ licenseLongForm)] := by
  refine ⟨by decide, rfl, by decide⟩

/-- C3 (amended): for a key whose lowercase form is exactly "license", the
shorthand "Creative Commons Attribution for Intergovernmental
Organisations" is first remapped to its canonical long form; the value is
then accepted with an INFO finding iff its lowercased, trimmed form is
verbatim a member of the license vocabulary (CRITICAL otherwise) — the
vocabulary entries themselves are not lowercased, so membership is not
case-insensitive on the vocabulary side.  In particular the remapped
shorthand validates as INFO whenever the lowercased long form is in the
vocabulary. -/
theorem license_rule_verbatim_membership (licL : List String)
    (key val : String) (h : pyLower key = "license") :
    ((licenseRule licL key val).1 =
      if licL.contains (pyStrip (pyLower (remapLicense val))) then
        [info ("Valid license type detected: " ++ remapLicense val)]
      else
        [critical ("Invalid license detected: " ++ remapLicense val)])
    ∧ (licL.contains (pyStrip (pyLower licenseLongForm)) = true →
        (licenseRule licL "License" licenseShorthand).1 =
          [info ("Valid license type detected: " ++ licenseLongForm)]) := by
  constructor
  · unfold licenseRule
    rw [h]
    show (if (!licL.contains (pyStrip (pyLower (remapLicense val)))) = true then
            ([critical ("Invalid license detected: " ++ remapLicense val)], remapLicense val)
          else ([info ("Valid license type detected: " ++ remapLicense val)], remapLicense val)).1
        = _
    cases hcb : licL.contains (pyStrip (pyLower (remapLicense val))) with
    | true => rfl
    | false => rfl
  · intro h2
    unfold licenseRule
    show (if !licL.contains (pyStrip (pyLower (remapLicense licenseShorthand)))
          then ([critical ("Invalid license detected: " ++ remapLicense licenseShorthand)],
            remapLicense licenseShorthand)
          else ([info ("Valid license type detected: " ++ remapLicense licenseShorthand)],
            remapLicense licenseShorthand)).1
        = [info ("Valid license type detected: " ++ licenseLongForm)]
    rw [show remapLicense licenseShorthand = licenseLongForm from rfl, h2]
    rfl

/-- Witness for C3's theorem: a lowercase vocabulary entry matched by a
differently-cased value. -/
theorem license_rule_verbatim_membership_witness :
    (licenseRule ["cc-by"] "License" "CC-BY").1
      = [info ("Valid license type detected: " ++ "CC-BY")] := by
  rw [(license_rule_verbatim_membership ["cc-by"] "License" "CC-BY" (by decide)).1]
  decide

/-- Counterexample to C4 as stated: a collection matching two name
candidates and two ISO candidates at once — both detections are ambiguous,
yet neither check emits any finding: the detector stays silent. -/
theorem column_detection_silent_cex :
    (colMatches nameCandidates fcAmbiguous).length = 2
      ∧ (colMatches isoCandidates fcAmbiguous).length = 2
      ∧ nameCheckFindings fcAmbiguous = []
      ∧ isoCheckFindings fcAmbiguous = [] := by
  refine ⟨by decide, by decide, rfl, rfl⟩

/-- C4 (amended): for each of the two detections independently, when the
intersection of that detection's candidate-name set with the available
columns holds zero elements or two or more elements, the corresponding
check emits no finding at all — it never picks an arbitrary matching
column, but it also stays silent instead of reporting the detection
failure, regardless of how the other detection fares. -/
theorem column_detection_failure_silent (fc : FeatureCollection) :
    ((colMatches nameCandidates fc).length ≠ 1 → nameCheckFindings fc = [])
      ∧ ((colMatches isoCandidates fc).length ≠ 1 → isoCheckFindings fc = []) := by
  constructor
  · intro hn
    unfold nameCheckFindings
    cases hm : colMatches nameCandidates fc with
    | nil => rfl
    | cons c t =>
      cases t with
      | nil => exact absurd (by rw [hm]; rfl) hn
      | cons d t2 => rfl
  · intro hi
    unfold isoCheckFindings
    cases hm : colMatches isoCandidates fc with
    | nil => rfl
    | cons c t =>
      cases t with
      | nil => exact absurd (by rw [hm]; rfl) hi
      | cons d t2 => rfl

/-- Witness for C4's theorem, exercising each arm on its own: the name
arm at the mixed collection (name ambiguous, ISO unique) and the ISO arm
at the doubly-ambiguous collection. -/
theorem column_detection_failure_silent_witness :
    nameCheckFindings fcMixed = [] ∧ isoCheckFindings fcAmbiguous = [] :=
  ⟨(column_detection_failure_silent fcMixed).1 (by decide),
    (column_detection_failure_silent fcAmbiguous).2 (by decide)⟩

/-- Counterexample to C5 as stated: an archive holding "license.jpg" does
contain a matching entry, yet the check emits a WARN, because the failed
".png" pass prints its WARN before the ".jpg" pass succeeds. -/
theorem license_image_warn_despite_match_cex :
    entryMatches ".jpg" "license.jpg" = true
      ∧ (licenseImageFindings ["license.jpg"]).1
          = [warn noImageMsg, info "License image found with extension .jpg."]
      ∧ warn noImageMsg ∈ (licenseImageFindings ["license.jpg"]).1 := by
  refine ⟨rfl, rfl, by decide⟩

/-- C5 (amended): the license-image check emits an INFO finding and
succeeds exactly when some entry ends case-insensitively in .png or .jpg,
but it also emits one "no license image" WARN for each extension pass that
fails before the first success: an archive with a .jpg entry but no .png
entry receives a WARN before its INFO, an archive with neither receives
two WARNs and no INFO, and only a .png-holding archive gets no WARN. -/
theorem license_image_characterization (names : List String) :
    licenseImageFindings names =
      if names.any (entryMatches ".png") then
        ([info "License image found with extension .png."], true)
      else if names.any (entryMatches ".jpg") then
        ([warn noImageMsg, info "License image found with extension .jpg."], true)
      else
        ([warn noImageMsg, warn noImageMsg], false) := by
  unfold licenseImageFindings
  show licenseImageLoop names [".png", ".jpg"] = _
  cases h1 : names.any (entryMatches ".png") with
  | true =>
    unfold licenseImageLoop
    rw [h1]
    rfl
  | false =>
    cases h2 : names.any (entryMatches ".jpg") with
    | true =>
      unfold licenseImageLoop licenseImageLoop
      rw [h1, h2]
      rfl
    | false =>
      unfold licenseImageLoop licenseImageLoop
      rw [h1, h2]
      rfl

/-- Counterexample to C6 as stated: a feature with xmax = 180.00002 does
not pass the extent check — 180.00002 exceeds 180 + 1e-5 — and yields the
CRITICAL extent finding. -/
theorem extent_tolerance_example_cex :
    geoOver.xmax = 180.00002
      ∧ ¬ extentOk geoOver
      ∧ featureFindings geoOver = [critical (extentMsg geoOver)] := by
  have h : ¬ extentOk geoOver := by
    unfold extentOk extentTol geoOver
    push_neg
    intro _
    norm_num
  refine ⟨rfl, h, ?_⟩
  unfold featureFindings extentFindings validityFindings
  rw [if_neg h]
  rfl

/-- C6 (amended): the extent check with tolerance 1e-5 passes iff
xmin ≥ -180-tol, xmax ≤ 180+tol, ymin ≥ -90-tol and ymax ≤ 90+tol, and any
violation produces exactly the CRITICAL extent finding; a feature with
xmax = 181 fails, and so does xmax = 180.00002, which exceeds the
tolerance — only boxes within 1e-5 of the earth extent (such as
xmax = 180.00001) pass. -/
theorem extent_characterization (g : Geometry) :
    (extentFindings g = [] ↔
      (-180 - 1/100000 ≤ g.xmin ∧ g.xmax ≤ 180 + 1/100000 ∧
        -90 - 1/100000 ≤ g.ymin ∧ g.ymax ≤ 90 + 1/100000))
    ∧ (extentFindings g = [] ∨ extentFindings g = [critical (extentMsg g)])
    ∧ extentFindings (Geometry.mk 0 0 181 0 true true "e") = [critical (extentMsg (Geometry.mk 0 0 181 0 true true "e"))]
    ∧ extentFindings (Geometry.mk 0 0 180.00001 0 true true "e") = [] := by
  have hiff : extentOk g ↔
      (-180 - 1/100000 ≤ g.xmin ∧ g.xmax ≤ 180 + 1/100000 ∧
        -90 - 1/100000 ≤ g.ymin ∧ g.ymax ≤ 90 + 1/100000) := by
    unfold extentOk extentTol
    exact Iff.rfl
  refine ⟨?_, ?_, ?_, ?_⟩
  · unfold extentFindings
    by_cases h : extentOk g
    · rw [if_pos h]
      simp only [true_iff]
      exact hiff.mp h
    · rw [if_neg h]
      constructor
      · intro he
        exact absurd he (by simp)
      · intro hc
        exact absurd (hiff.mpr hc) h
  · unfold extentFindings
    by_cases h : extentOk g
    · exact Or.inl (if_pos h)
    · exact Or.inr (if_neg h)
  · unfold extentFindings
    rw [if_neg]
    unfold extentOk extentTol
    push_neg
    intro _
    norm_num
  · unfold extentFindings
    rw [if_pos]
    unfold extentOk extentTol
    norm_num

/-- C7: for every feature whose geometry is topologically invalid, the
validator emits a WARN with the validity explanation, then exactly one
zero-distance-buffer repair attempt decides the second finding: a WARN
that the error was auto-corrected when the buffered geometry is valid
(with no CRITICAL emitted for this step), or a CRITICAL that the geometry
is unrepairable when it is still invalid. -/
theorem invalid_geometry_repair (g : Geometry) (h : g.isValid = false) :
    validityFindings g =
      warn ("Something is wrong with this geometry, but we might be able to fix it with a buffer: "
          ++ g.explainValidity) ::
        (if g.buffer0IsValid then
          [warn "A geometry error was corrected with buffer=0 in shapely."]
        else
          [critical ("ERROR: Something is wrong with this geometry, and we can\x27t fix it: "
              ++ g.explainValidity)])
    ∧ (g.buffer0IsValid = true →
        ∀ f ∈ validityFindings g, f.severity ≠ Severity.CRITICAL)
    ∧ (g.buffer0IsValid = false →
        critical ("ERROR: Something is wrong with this geometry, and we can\x27t fix it: "
            ++ g.explainValidity) ∈ validityFindings g) := by
  unfold validityFindings
  rw [h]
  refine ⟨rfl, ?_, ?_⟩
  · intro hb f hf
    rw [hb] at hf
    simp only [Bool.false_eq_true, if_false, if_true, List.mem_cons,
      List.mem_singleton] at hf
    rcases hf with hf | hf | hf
    · rw [hf]; simp [warn]
    · rw [hf]; simp [warn]
    · cases hf
  · intro hb
    rw [hb]
    simp

/-- Witness for C7's theorem at a repairable invalid geometry. -/
theorem invalid_geometry_repair_witness :
    validityFindings geoBroken =
      [warn ("Something is wrong with this geometry, but we might be able to fix it with a buffer: "
          ++ "Self-intersection at or near point 0 0"),
        warn "A geometry error was corrected with buffer=0 in shapely."] := by
  rw [(invalid_geometry_repair geoBroken rfl).1]
  rfl

/-- C8: the metadata check is total — for every raw text it returns the
opening INFO followed by the findings of every line in order, with no
exception escaping — and every line without a colon (the case in which the
source's `try` block fails) yields the sentinel pair
("readError", "readError") together with a WARN citing the offending line,
after which validation of the remaining lines continues as part of the
same flat traversal. -/
theorem meta_parse_fault_tolerance :
    (∀ (isoL licL : List String) (y : Int) (text : String),
      metaCheckFindings isoL licL y text =
        info "Beginning meta.txt validity checks." ::
          (pySplitlines text).flatMap (lineFindings isoL licL y))
    ∧ (∀ (isoL licL : List String) (y : Int) (m : String), ':' ∉ m.data →
        lineKV m = ("readError", "readError")
          ∧ lineFindings isoL licL y m = [warn (readFailMsg m)]) := by
  constructor
  · intro isoL licL y text
    rfl
  · intro isoL licL y m hm
    have hp := parseLine_no_colon m hm
    constructor
    · unfold lineKV
      rw [hp]
    · unfold lineFindings
      rw [hp]
      rw [lineRules_sentinel]

/-- Witness for C8's theorem at a colon-free line. -/
theorem meta_parse_fault_tolerance_witness :
    ':' ∉ ("just words" : String).data
      ∧ lineKV "just words" = ("readError", "readError")
      ∧ lineFindings [] [] 2024 "just words" = [warn (readFailMsg "just words")] := by
  refine ⟨by decide, ?_, ?_⟩
  · exact (meta_parse_fault_tolerance.2 [] [] 2024 "just words" (by decide)).1
  · exact (meta_parse_fault_tolerance.2 [] [] 2024 "just words" (by decide)).2

/-- C10: an empty line of the metadata text is not skipped — it parses to
the sentinel pair ("readError", "readError") and contributes exactly the
read-failure WARN to the findings, in its position between the findings of
the surrounding lines. -/
theorem empty_line_not_skipped (isoL licL : List String) (y : Int)
    (text : String) (pre post : List String)
    (h : pySplitlines text = pre ++ "" :: post) :
    lineKV "" = ("readError", "readError")
      ∧ metaCheckFindings isoL licL y text =
          info "Beginning meta.txt validity checks." ::
            (pre.flatMap (lineFindings isoL licL y)
              ++ warn (readFailMsg "")
                :: post.flatMap (lineFindings isoL licL y)) := by
  constructor
  · rfl
  · have hl : lineFindings isoL licL y "" = [warn (readFailMsg "")] := by
      unfold lineFindings
      rw [show parseLine "" = Except.error "list index out of range" from rfl]
      rw [lineRules_sentinel]
    unfold metaCheckFindings
    rw [h, List.flatMap_append, List.flatMap_cons, hl]
    rfl

/-- Witness for C10's theorem at the text "A\n\nB", whose middle line is
empty. -/
theorem empty_line_not_skipped_witness :
    pySplitlines "A\n\nB" = ["A"] ++ "" :: ["B"]
      ∧ metaCheckFindings [] [] 2024 "A\n\nB" =
          info "Beginning meta.txt validity checks." ::
            (["A"].flatMap (lineFindings [] [] 2024)
              ++ warn (readFailMsg "")
                :: ["B"].flatMap (lineFindings [] [] 2024)) := by
  refine ⟨by decide, ?_⟩
  exact (empty_line_not_skipped [] [] 2024 "A\n\nB" ["A"] ["B"] (by decide)).2

/-- Counterexample to C1 as stated: a full run over a submission whose
metadata carries an invalid ISO code emits a CRITICAL finding — so the
spec-derived `passed` is false — yet the orchestrator still ends with its
unconditional success line "All checks are passes": the code derives no
passed boolean from the findings. -/
theorem allChecks_success_despite_critical_cex :
    (allChecks [] [] 2024 subCritical).2 = "All checks are passes"
      ∧ specPassed (allChecks [] [] 2024 subCritical).1 = false
      ∧ critical "ISO is invalid - we expect a 3-character ISO code following ISO-3166-1 (Alpha 3)."
          ∈ (allChecks [] [] 2024 subCritical).1 := by
  refine ⟨rfl, rfl, by decide⟩

/-- C1 (amended): a full orchestration run over any archive submission
ends with the terminal line "All checks are passes" unconditionally — the
reported outcome does not depend on the findings at all, so it is
unaffected by WARN and INFO findings, but equally unaffected by CRITICAL
ones; no `passed` boolean equivalent to "zero CRITICAL findings" is
derived. -/
theorem allChecks_terminal_unconditional (isoL licL : List String)
    (y : Int) (s : Submission) :
    (allChecks isoL licL y s).2 = "All checks are passes" := rfl

/-- Counterexample to C9 as stated: the same immutable inputs — identical
feature collection, CRS, metadata text "Year: 2026" and vocabularies —
produce different finding sequences when the runs happen under different
clock years (2026 vs 2025): the checks are not a function of the listed
in-memory data alone, because the year validator reads the system clock. -/
theorem allChecks_clock_dependence_cex :
    allChecks [] [] 2026 subYear ≠ allChecks [] [] 2025 subYear
      ∧ info "Valid year 2026 detected." ∈ (allChecks [] [] 2026 subYear).1
      ∧ critical "The year in the meta.txt file is invalid (expected value is between 1950 and present): 2026"
          ∈ (allChecks [] [] 2025 subYear).1 := by
  refine ⟨by decide, by decide, by decide⟩

/-- C9 (amended): running the full set of checks twice on the same
immutable inputs produces an identical finding sequence provided the
current clock year is unchanged between the runs; apart from that single
clock read of the year validator, every check is a pure function of the
loaded in-memory data.  In particular, whenever no parsed metadata key
contains "Year" or "year", the whole run is independent of the clock. -/
theorem allChecks_clock_independent_without_year (isoL licL : List String)
    (s : Submission) (y₁ y₂ : Int)
    (h : ∀ m ∈ pySplitlines s.metaText, yearTrigger (lineKV m).1 = false) :
    allChecks isoL licL y₁ s = allChecks isoL licL y₂ s := by
  unfold allChecks metaCheckFindings
  rw [flatMap_lineFindings_year_indep isoL licL y₁ y₂ (pySplitlines s.metaText) h]

/-- Witness for C9's theorem: a submission whose metadata has no year key
gets identical findings under clock years 2020 and 2030. -/
theorem allChecks_clock_independent_without_year_witness :
    (∀ m ∈ pySplitlines subCritical.metaText, yearTrigger (lineKV m).1 = false)
      ∧ allChecks [] [] 2020 subCritical = allChecks [] [] 2030 subCritical := by
  refine ⟨by decide, ?_⟩
  exact allChecks_clock_independent_without_year [] [] subCritical 2020 2030 (by decide)

end PyGeoBoundaries
